import Mathlib

/-!
# Verification of the AssppWeb authentication engine

A shallow embedding of the Apple authentication core of this repository:

* `frontend/src/apple/idmsa.ts` — the IDMSA (identity-provider) client:
  password derivation (`derivePassword`), base64 helpers (`b64Encode`,
  `b64Decode`), the SRP sign-in orchestration (`idmsaSignin`) and the
  phone-enumeration call (`idmsaGetPhoneNumbers`).
* `frontend/src/apple/authenticate.ts` — the MZFinance (account-service)
  sign-in state machine (`authenticate`).

External collaborators that are not part of the repository source
(the HTTP transport, the plist parser, the cookie-merge utility, the
service-discovery bag, WebCrypto, and the `@foxt/js-srp` SRP client) are
modelled explicitly; each such definition carries a doc comment saying so.
HTTP responses are scripted: each network call consumes the next response
from a caller-supplied list, and every function returns the list of requests
it sent, so call-count and request-identity properties are statable.

Machine words are `Nat` reduced with `% 2 ^ 32` where the source uses 32-bit
arithmetic; byte strings are `List Nat` with each element `< 256`.
-/

/-! ## Byte and word helpers -/

/-- Reduce to a 32-bit word. -/
def w32 (x : Nat) : Nat := x % 4294967296

/-- Rotate a 32-bit word right by `n` bits. -/
def rotr32 (n x : Nat) : Nat :=
  w32 ((x % 4294967296) >>> n + (x % 4294967296) <<< (32 - n))

/-- Big-endian bytes of a 32-bit word. -/
def wordBytes (x : Nat) : List Nat :=
  [x / 16777216 % 256, x / 65536 % 256, x / 256 % 256, x % 256]

/-- Big-endian 4-byte encoding of a block index (PBKDF2 INT function). -/
def intBE4 (i : Nat) : List Nat := wordBytes i

/-- Big-endian 8-byte length field used by SHA-256 padding. -/
def lenBytes8 (n : Nat) : List Nat :=
  [n / 72057594037927936 % 256, n / 281474976710656 % 256,
   n / 1099511627776 % 256, n / 4294967296 % 256,
   n / 16777216 % 256, n / 65536 % 256, n / 256 % 256, n % 256]

/-- Interpret a byte string as a big-endian natural number. -/
def natOfBytes (bs : List Nat) : Nat :=
  bs.foldl (fun acc b => acc * 256 + b % 256) 0

/-- Big-endian byte string of a natural number (empty for zero). -/
def natToBytes (n : Nat) : List Nat :=
  if n = 0 then [] else natToBytes (n / 256) ++ [n % 256]
termination_by n
decreasing_by omega

/-- Pointwise xor of two byte strings (length of the shorter). -/
def xorBytes (xs ys : List Nat) : List Nat :=
  List.zipWith (fun a b => a ^^^ b) xs ys

/-- UTF-8 bytes of a string, as the `TextEncoder().encode` collaborator
produces them. -/
def utf8Bytes (s : String) : List Nat :=
  s.toUTF8.toList.map (fun b => b.toNat)

/-- One lowercase hexadecimal digit. -/
def hexDigit (n : Nat) : Char :=
  "0123456789abcdef".toList.getD n '0'

/-- Modelled from the spec: `util.toHex` of the SRP library — the lowercase
hexadecimal rendering of a byte string, two digits per byte. -/
def toHexStr (bs : List Nat) : String :=
  String.mk ((bs.map (fun b => [hexDigit (b % 256 / 16), hexDigit (b % 16)])).flatten)

/-! ## SHA-256

Modelled from the spec: the `crypto.subtle.digest("SHA-256", _)` collaborator,
implemented as FIPS 180-4 SHA-256 over byte strings. -/

/-- SHA-256 working state: eight 32-bit words. -/
structure Sha256State where
  a : Nat
  b : Nat
  c : Nat
  d : Nat
  e : Nat
  f : Nat
  g : Nat
  h : Nat

/-- SHA-256 initial hash value (FIPS 180-4 section 5.3.3, written in
decimal). -/
def shaInit : Sha256State :=
  ⟨1779033703, 3144134277, 1013904242, 2773480762,
   1359893119, 2600822924, 528734635, 1541459225⟩

/-- SHA-256 round constants (FIPS 180-4 section 4.2.2, written in
decimal). -/
def shaK : List Nat :=
  [1116352408, 1899447441, 3049323471, 3921009573,
   961987163, 1508970993, 2453635748, 2870763221,
   3624381080, 310598401, 607225278, 1426881987,
   1925078388, 2162078206, 2614888103, 3248222580,
   3835390401, 4022224774, 264347078, 604807628,
   770255983, 1249150122, 1555081692, 1996064986,
   2554220882, 2821834349, 2952996808, 3210313671,
   3336571891, 3584528711, 113926993, 338241895,
   666307205, 773529912, 1294757372, 1396182291,
   1695183700, 1986661051, 2177026350, 2456956037,
   2730485921, 2820302411, 3259730800, 3345764771,
   3516065817, 3600352804, 4094571909, 275423344,
   430227734, 506948616, 659060556, 883997877,
   958139571, 1322822218, 1537002063, 1747873779,
   1955562222, 2024104815, 2227730452, 2361852424,
   2428436474, 2756734187, 3204031479, 3329325298]

/-- SHA-256 Ch function. -/
def shaCh (x y z : Nat) : Nat := (x &&& y) ^^^ ((x ^^^ 4294967295) &&& z)

/-- SHA-256 Maj function. -/
def shaMaj (x y z : Nat) : Nat := (x &&& y) ^^^ (x &&& z) ^^^ (y &&& z)

/-- SHA-256 big sigma 0. -/
def bigSigma0 (x : Nat) : Nat := rotr32 2 x ^^^ rotr32 13 x ^^^ rotr32 22 x

/-- SHA-256 big sigma 1. -/
def bigSigma1 (x : Nat) : Nat := rotr32 6 x ^^^ rotr32 11 x ^^^ rotr32 25 x

/-- SHA-256 small sigma 0. -/
def smallSigma0 (x : Nat) : Nat := rotr32 7 x ^^^ rotr32 18 x ^^^ (x % 4294967296) >>> 3

/-- SHA-256 small sigma 1. -/
def smallSigma1 (x : Nat) : Nat := rotr32 17 x ^^^ rotr32 19 x ^^^ (x % 4294967296) >>> 10

/-- Group a byte string into big-endian 32-bit words. -/
def toWords : List Nat → List Nat
  | a :: b :: c :: d :: rest =>
    ((a % 256) * 16777216 + (b % 256) * 65536 + (c % 256) * 256 + d % 256) :: toWords rest
  | _ => []

/-- Extend a 16-word message schedule by `k` further words. -/
def shaExtend (ws : List Nat) : Nat → List Nat
  | 0 => ws
  | k + 1 =>
    let n := ws.length
    let next := w32 (smallSigma1 (ws.getD (n - 2) 0) + ws.getD (n - 7) 0 +
      smallSigma0 (ws.getD (n - 15) 0) + ws.getD (n - 16) 0)
    shaExtend (ws ++ [next]) k

/-- One SHA-256 compression round. -/
def shaCompressRound (st : Sha256State) (k wv : Nat) : Sha256State :=
  let t1 := w32 (st.h + bigSigma1 st.e + shaCh st.e st.f st.g + k + wv)
  let t2 := w32 (bigSigma0 st.a + shaMaj st.a st.b st.c)
  { a := w32 (t1 + t2), b := st.a, c := st.b, d := st.c,
    e := w32 (st.d + t1), f := st.e, g := st.f, h := st.g }

/-- Run the 64 compression rounds over the zipped constants and schedule. -/
def shaRounds : Sha256State → List (Nat × Nat) → Sha256State
  | st, [] => st
  | st, (k, wv) :: rest => shaRounds (shaCompressRound st k wv) rest

/-- Compress one 64-byte block into the running state. -/
def shaCompressBlock (st : Sha256State) (block : List Nat) : Sha256State :=
  let ws := shaExtend (toWords block) 48
  let st2 := shaRounds st (shaK.zip ws)
  { a := w32 (st.a + st2.a), b := w32 (st.b + st2.b), c := w32 (st.c + st2.c),
    d := w32 (st.d + st2.d), e := w32 (st.e + st2.e), f := w32 (st.f + st2.f),
    g := w32 (st.g + st2.g), h := w32 (st.h + st2.h) }

/-- SHA-256 padding: a `0x80` byte, zeros, and the 8-byte bit length. -/
def shaPad (msg : List Nat) : List Nat :=
  msg ++ [128] ++ List.replicate ((64 - ((msg.length + 9) % 64)) % 64) 0 ++
    lenBytes8 (msg.length * 8)

/-- Split a byte string into 64-byte blocks. -/
def chunk64 (l : List Nat) : List (List Nat) :=
  match l with
  | [] => []
  | x :: rest => (x :: rest).take 64 :: chunk64 ((x :: rest).drop 64)
termination_by l.length
decreasing_by simp [List.length_drop]; omega

/-- SHA-256 digest of a byte string: 32 bytes. -/
def sha256 (msg : List Nat) : List Nat :=
  let st := (chunk64 (shaPad msg)).foldl shaCompressBlock shaInit
  wordBytes st.a ++ wordBytes st.b ++ wordBytes st.c ++ wordBytes st.d ++
  wordBytes st.e ++ wordBytes st.f ++ wordBytes st.g ++ wordBytes st.h

/-! ## HMAC-SHA-256 and PBKDF2

Modelled from the spec: the `crypto.subtle` PBKDF2 collaborator
(`importKey` + `deriveBits` with hash SHA-256), per RFC 2104 and RFC 8018. -/

/-- HMAC key preprocessing: hash an over-long key, then zero-pad to 64 bytes. -/
def hmacKeyPad (key : List Nat) : List Nat :=
  let k0 := if 64 < key.length then sha256 key else key
  k0 ++ List.replicate (64 - k0.length) 0

/-- HMAC-SHA-256 of a message under a key. -/
def hmacSha256 (key msg : List Nat) : List Nat :=
  let k := hmacKeyPad key
  sha256 ((k.map (fun b => b ^^^ 92)) ++ sha256 ((k.map (fun b => b ^^^ 54)) ++ msg))

/-- The xor-accumulation of PBKDF2 iterations 2..c for one block. -/
def pbkdf2Rounds (p acc u : List Nat) : Nat → List Nat
  | 0 => acc
  | k + 1 =>
    let u2 := hmacSha256 p u
    pbkdf2Rounds p (xorBytes acc u2) u2 k

/-- PBKDF2 block `T_i` for `c` iterations (`c ≥ 1`). -/
def pbkdf2Block (p s : List Nat) (c i : Nat) : List Nat :=
  let u1 := hmacSha256 p (s ++ intBE4 i)
  pbkdf2Rounds p u1 u1 (c - 1)

/-- PBKDF2-HMAC-SHA-256: derive `dkLen` bytes from password bytes `p`,
salt `s` and iteration count `c`. -/
def pbkdf2Sha256 (p s : List Nat) (c dkLen : Nat) : List Nat :=
  (((List.range ((dkLen + 31) / 32)).map (fun i => pbkdf2Block p s c (i + 1))).flatten).take dkLen

/-! ## Password derivation (`derivePassword`, idmsa.ts lines 63-93) -/

/-- The SRP protocol tag returned by the init endpoint. -/
inductive SRPProtocol where
  | s2k
  | s2k_fo
deriving DecidableEq

/-- `derivePassword` from idmsa.ts: SHA-256 the UTF-8 password, for `s2k_fo`
re-encode the digest through a lowercase hex string, then run PBKDF2-SHA-256
to 256 bits. WebCrypto rejects a zero iteration count (`OperationError`),
modelled as `none`. -/
def derivePassword (protocol : SRPProtocol) (password : String) (salt : List Nat)
    (iterations : Nat) : Option (List Nat) :=
  let passBytes := utf8Bytes password
  let passHash := sha256 passBytes
  let passHash2 := if protocol = .s2k_fo then utf8Bytes (toHexStr passHash) else passHash
  if iterations = 0 then none
  else some (pbkdf2Sha256 passHash2 salt iterations 32)

/-- The input key material the specification prescribes for PBKDF2:
`h = SHA256(UTF8(password))`, replaced for `s2k_fo` by
`UTF8(lowercase-hex(h))`. Written from the spec wording, to be compared
with `derivePassword` from the source. -/
def specIkm (protocol : SRPProtocol) (password : String) : List Nat :=
  match protocol with
  | .s2k => sha256 (utf8Bytes password)
  | .s2k_fo => utf8Bytes (toHexStr (sha256 (utf8Bytes password)))

/-! ## Base64 (`b64Encode` / `b64Decode`, idmsa.ts lines 95-110)

`b64Encode` builds a latin-1 string from the bytes and applies `btoa`;
`b64Decode` applies `atob` and reads the character codes back. The two
browser builtins are modelled here directly over byte lists, for canonical
padded base64 (the only form the code produces or receives). A failing
`atob` (invalid character, bad length) is `none`. -/

/-- The base64 alphabet. -/
def b64Alphabet : List Char :=
  "ABCDEFGHIJKLMNOPQRSTUVWXYZabcdefghijklmnopqrstuvwxyz0123456789+/".toList

/-- Character for a 6-bit group. -/
def b64Char (n : Nat) : Char := b64Alphabet.getD n '?'

/-- Index of a base64 character in the alphabet, `none` when invalid. -/
def b64Index (c : Char) : Option Nat :=
  b64Alphabet.findIdx? (fun x => x = c)

/-- Base64-encode a byte list (three bytes to four characters, `=` padding). -/
def encB64 : List Nat → List Char
  | [] => []
  | [a] => [b64Char (a % 256 / 4), b64Char (a % 4 * 16), '=', '=']
  | [a, b] => [b64Char (a % 256 / 4), b64Char (a % 4 * 16 + b % 256 / 16),
               b64Char (b % 16 * 4), '=']
  | a :: b :: c :: rest =>
    [b64Char (a % 256 / 4), b64Char (a % 4 * 16 + b % 256 / 16),
     b64Char (b % 16 * 4 + c % 256 / 64), b64Char (c % 64)] ++ encB64 rest

/-- Base64-decode a character list (canonical padded form). -/
def decB64 : List Char → Option (List Nat)
  | [] => some []
  | c1 :: c2 :: c3 :: c4 :: rest =>
    if c3 = '=' ∧ c4 = '=' ∧ rest = [] then
      (b64Index c1).bind fun s1 => (b64Index c2).bind fun s2 =>
        some [s1 * 4 + s2 / 16]
    else if c4 = '=' ∧ rest = [] then
      (b64Index c1).bind fun s1 => (b64Index c2).bind fun s2 =>
        (b64Index c3).bind fun s3 =>
          some [s1 * 4 + s2 / 16, s2 % 16 * 16 + s3 / 4]
    else
      (b64Index c1).bind fun s1 => (b64Index c2).bind fun s2 =>
        (b64Index c3).bind fun s3 => (b64Index c4).bind fun s4 =>
          (decB64 rest).bind fun br =>
            some ([s1 * 4 + s2 / 16, s2 % 16 * 16 + s3 / 4, s3 % 4 * 64 + s4] ++ br)
  | _ => none

/-- `b64Encode` from idmsa.ts. -/
def b64Encode (buf : List Nat) : String := String.mk (encB64 buf)

/-- `b64Decode` from idmsa.ts. -/
def b64Decode (s : String) : Option (List Nat) := decB64 s.toList

/-! ## SRP handshake engine

Modelled from the spec: the `@foxt/js-srp` client (`Srp(Mode.GSA, Hash.SHA256,
2048)`) is an external library. The spec fixes its interface — a client public
ephemeral computed before the key is known, a one-time key injection, and a
proof-generation step that must reject a malformed salt (`ProtocolError`) and
a degenerate server ephemeral, i.e. zero or a multiple of the group modulus
(`InvalidEphemeral`) — but not the proof formulas, so the group `(N, g)` is a
parameter and the proof values follow the standard SRP-6a shape; no theorem
below depends on their exact values. -/

/-- SRP failure classes required by the spec. -/
inductive SrpError where
  | invalidEphemeral
  | protocolError
deriving DecidableEq

/-- Modelled from the spec: the client public ephemeral `A = g ^ a mod N`,
computable before the derived key is known. -/
def clientPublicA (N g a : Nat) : Nat := g ^ a % N

/-- Modelled from the spec: the proof-generation step
(`client.generate(salt, serverB)` followed by reading `M` and `generateM2`).
A server ephemeral that reduces to zero mod `N` is an `InvalidEphemeral`
failure; an empty salt is a `ProtocolError`; otherwise the two proof values
are produced. -/
def srpGenerate (N g a : Nat) (ikm salt serverB : List Nat) :
    Except SrpError (List Nat × List Nat) :=
  if natOfBytes serverB % N = 0 then .error .invalidEphemeral
  else if salt = [] then .error .protocolError
  else
    let A := clientPublicA N g a
    let B := natOfBytes serverB % N
    let u := natOfBytes (sha256 (natToBytes A ++ natToBytes B))
    let x := natOfBytes (sha256 (salt ++ ikm))
    let k := natOfBytes (sha256 (natToBytes N ++ natToBytes g))
    let S := (B + k * (N - g ^ x % N)) ^ (a + u * x) % N
    let K := sha256 (natToBytes S)
    let m1 := sha256 (natToBytes A ++ natToBytes B ++ K)
    let m2 := sha256 (natToBytes A ++ m1 ++ K)
    .ok (m1, m2)

/-! ## IDMSA session client (`idmsaSignin`, idmsa.ts lines 116-212)

The HTTP transport is scripted: the caller supplies the response each network
exchange will receive, and the model returns the requests that were sent. -/

/-- The parsed JSON body of the `/signin/init` response. -/
structure InitData where
  iteration : Nat
  salt : String
  protocol : SRPProtocol
  b : String
  c : String
deriving DecidableEq

/-- The `/signin/init` HTTP response: status plus parsed body
(`none` when `JSON.parse` fails). -/
structure InitResp where
  status : Nat
  data : Option InitData
deriving DecidableEq

/-- The `/signin/complete` HTTP response: status plus the two session headers
(`x-apple-id-session-id` and `scnt`), `none` when absent. -/
structure CompleteResp where
  status : Nat
  sessionId : Option String
  scnt : Option String
deriving DecidableEq

/-- A request sent by the IDMSA client. -/
inductive IdmsaReq where
  | init (a : String) (accountName : String)
  | complete (accountName c m1 m2 : String)
deriving DecidableEq

/-- Failure classes of the IDMSA client. -/
inductive IdmsaErr where
  | initFailed
  | badInitBody
  | badBase64
  | badIterations
  | invalidEphemeral
  | protocolError
  | completeFailed
  | missingSessionHeaders
deriving DecidableEq

/-- The session extracted from the complete response headers. -/
structure IdmsaSession where
  sessionId : String
  scnt : String
deriving DecidableEq

/-- `idmsaSignin` from idmsa.ts over a scripted transport: send `A` to init,
derive the password from the init data, generate the SRP proofs, send them to
complete, and read the session headers. `200` and `409` are both accepted for
the complete call; a falsy (`absent` or empty) session header is a failure.
Returns the outcome and the requests sent. -/
def idmsaSignin (N g a : Nat) (email password : String)
    (initResp : InitResp) (completeResp : CompleteResp) :
    Except IdmsaErr IdmsaSession × List IdmsaReq :=
  let A := clientPublicA N g a
  let initReq := IdmsaReq.init (b64Encode (natToBytes A)) email
  if initResp.status ≠ 200 then (.error .initFailed, [initReq])
  else
    match initResp.data with
    | none => (.error .badInitBody, [initReq])
    | some d =>
      match b64Decode d.salt with
      | none => (.error .badBase64, [initReq])
      | some saltB =>
        match b64Decode d.b with
        | none => (.error .badBase64, [initReq])
        | some serverB =>
          match derivePassword d.protocol password saltB d.iteration with
          | none => (.error .badIterations, [initReq])
          | some dk =>
            match srpGenerate N g a dk saltB serverB with
            | .error .invalidEphemeral => (.error .invalidEphemeral, [initReq])
            | .error .protocolError => (.error .protocolError, [initReq])
            | .ok (m1, m2) =>
              let compReq := IdmsaReq.complete email d.c (b64Encode m1) (b64Encode m2)
              let trace := [initReq, compReq]
              if completeResp.status ≠ 409 ∧ completeResp.status ≠ 200 then
                (.error .completeFailed, trace)
              else
                match completeResp.sessionId, completeResp.scnt with
                | some sid, some sc =>
                  if sid = "" ∨ sc = "" then (.error .missingSessionHeaders, trace)
                  else (.ok { sessionId := sid, scnt := sc }, trace)
                | _, _ => (.error .missingSessionHeaders, trace)

/-! ## Phone enumeration (`idmsaGetPhoneNumbers`, idmsa.ts lines 214-248) -/

/-- A trusted phone entry as mapped from the response. -/
structure TrustedPhoneNumber where
  id : Nat
  numberWithDialCode : String
  pushMode : String
deriving DecidableEq

/-- The nested `securityCode` object of the auth-info response; each flag is
`none` when the JSON field is absent or not a boolean. -/
structure SecurityCodeInfo where
  tooManyCodesSent : Option Bool
  securityCodeCooldown : Option Bool
  securityCodeLocked : Option Bool
deriving DecidableEq

/-- The parsed auth-info response body: the phone list
(`trustedPhoneNumbers ?? []` makes an absent list empty) and the optional
`securityCode` object. -/
structure AuthInfoData where
  trustedPhoneNumbers : List TrustedPhoneNumber
  securityCode : Option SecurityCodeInfo
deriving DecidableEq

/-- The auth-info HTTP response (`none` body when `JSON.parse` fails). -/
structure AuthInfoResp where
  status : Nat
  data : Option AuthInfoData
deriving DecidableEq

/-- The result record built by `idmsaGetPhoneNumbers`. -/
structure PhoneNumbersResult where
  trustedPhoneNumbers : List TrustedPhoneNumber
  securityCodeCooldown : Bool
  tooManyCodesSent : Bool
  securityCodeLocked : Bool
deriving DecidableEq

/-- Failures of `idmsaGetPhoneNumbers`. -/
inductive PhoneErr where
  | requestFailed
  | badBody
deriving DecidableEq

/-- JavaScript `x?.field === true` over an optional object. -/
def optFlag (sc : Option SecurityCodeInfo) (f : SecurityCodeInfo → Option Bool) : Bool :=
  (sc.bind f) == some true

/-- `idmsaGetPhoneNumbers` from idmsa.ts: non-200 is a failure; otherwise the
phone list is mapped through and `securityCodeCooldown` is reported as the
union of the `tooManyCodesSent` and `securityCodeCooldown` flags. -/
def idmsaGetPhoneNumbers (resp : AuthInfoResp) : Except PhoneErr PhoneNumbersResult :=
  if resp.status ≠ 200 then .error .requestFailed
  else
    match resp.data with
    | none => .error .badBody
    | some d =>
      .ok { trustedPhoneNumbers := d.trustedPhoneNumbers,
            securityCodeCooldown :=
              optFlag d.securityCode (fun s => s.tooManyCodesSent) ||
              optFlag d.securityCode (fun s => s.securityCodeCooldown),
            tooManyCodesSent := optFlag d.securityCode (fun s => s.tooManyCodesSent),
            securityCodeLocked := optFlag d.securityCode (fun s => s.securityCodeLocked) }

/-! ## Account-service sign-in (`authenticate`, authenticate.ts)

The loop `while (currentAttempt < 2 && redirectAttempt <= 3)` sends one POST
per iteration. External collaborators are modelled as data carried by each
scripted response:

* `parsePlist` — a response body is `empty` (fails the `body.trim()` check),
  `malformed` (`parsePlist` throws), or a `plist` dictionary restricted to the
  fields the code reads; `dialog?.explanation` is flattened to one optional
  string.
* `extractAndMergeCookies(rawHeaders, cookies)` — each response carries the
  function it denotes, applied to the running cookie list.
* the `location` header is carried already split into host and path, as
  `new URL(location)` would produce (an unparseable URL is not modelled).
* `fetchBag` — the discovered auth endpoint (after the `guid` query parameter
  is set) is passed in as `bagHost` / `bagPath`; the dead write of the default
  endpoint at lines 30-33 is elided.
* `i18n.t` — localized messages are represented by their keys.

Thrown `AuthenticationError`s escape the loop; any other thrown error is
caught at line 197, recorded as `lastError`, and the loop continues. -/

/-- A cookie; the engine never inspects one, it only copies and merges. -/
abbrev Cookie := String

/-- The `address` sub-dictionary of `accountInfo`. -/
structure AddressDict where
  firstName : Option String
  lastName : Option String
deriving DecidableEq

/-- The `accountInfo` sub-dictionary of the plist response. -/
structure AccountInfoDict where
  appleId : Option String
  address : Option AddressDict
deriving DecidableEq

/-- The plist dictionary fields the state machine reads;
`dsPersonId` is carried already stringified (`String(dict.dsPersonId ?? "")`
maps `none` to `""`). -/
structure PlistDict where
  failureType : Option String
  customerMessage : Option String
  dialogExplanation : Option String
  accountInfo : Option AccountInfoDict
  passwordToken : Option String
  dsPersonId : Option String
deriving DecidableEq

/-- A response body as seen through `body.trim()` and `parsePlist`. -/
inductive MzBody where
  | empty
  | malformed
  | plist (d : PlistDict)

/-- One scripted MZFinance HTTP response. -/
structure MzResp where
  status : Nat
  location : Option (String × String)
  storeFront : Option String
  pod : Option String
  merge : List Cookie → List Cookie
  body : MzBody

/-- The form parameters of one MZFinance POST. -/
structure MzParams where
  appleId : String
  attempt : String
  guid : String
  password : String
  rmp : String
  why : String
deriving DecidableEq

/-- One request sent by `authenticate`: target plus form body. -/
structure MzRequest where
  host : String
  path : String
  body : MzParams
deriving DecidableEq

/-- The caller-supplied inputs of `authenticate`. -/
structure AuthInputs where
  email : String
  password : String
  code : Option String
  smsVerified : Bool
  deviceId : String
deriving DecidableEq

/-- The account record assembled on success, generic in the representation of
its cookie field (a value in the pure model, a heap reference in the heap
model). -/
structure AccountG (κ : Type) where
  email : String
  password : String
  appleId : String
  store : String
  firstName : String
  lastName : String
  passwordToken : String
  directoryServicesIdentifier : String
  cookies : κ
  deviceIdentifier : String
  pod : Option String
deriving DecidableEq

/-- The pure account record. -/
abbrev Account := AccountG (List Cookie)

/-- Replace the cookie field of an account. -/
def mapAccountCookies {κ κ2 : Type} (f : κ → κ2) (a : AccountG κ) : AccountG κ2 :=
  { email := a.email, password := a.password, appleId := a.appleId,
    store := a.store, firstName := a.firstName, lastName := a.lastName,
    passwordToken := a.passwordToken,
    directoryServicesIdentifier := a.directoryServicesIdentifier,
    cookies := f a.cookies, deviceIdentifier := a.deviceIdentifier, pod := a.pod }

/-- Outcome of a call to `authenticate`: success, the distinguished
`AuthenticationError` with `codeRequired == true`, a surfaced failure
(the final `throw lastError ?? ...`), or exhaustion of the response script. -/
inductive AuthResultG (κ : Type) where
  | ok (a : AccountG κ)
  | verificationRequired (msg : String)
  | failure (msg : String)
  | outOfScript
deriving DecidableEq

/-- The pure outcome type. -/
abbrev AuthResult := AuthResultG (List Cookie)

/-- Replace the cookie field of an outcome. -/
def mapResultCookies {κ κ2 : Type} (f : κ → κ2) : AuthResultG κ → AuthResultG κ2
  | .ok a => .ok (mapAccountCookies f a)
  | .verificationRequired m => .verificationRequired m
  | .failure m => .failure m
  | .outOfScript => .outOfScript

/-- Mutable loop state: attempt and redirect counters, current request
target, accumulated cookies, captured store front, and the last caught
error message. -/
structure LoopState where
  attempt : Nat
  redirect : Nat
  host : String
  path : String
  cookies : List Cookie
  storeFront : String
  lastError : Option String

/-- The form body built each iteration (lines 52-61): with a code and no SMS
verification the password is `password ++ code` and the attempt marker is
`"2"`; otherwise the plain password with marker `"4"`. -/
def requestParams (I : AuthInputs) : MzParams :=
  let useCode := I.code.isSome && !I.smsVerified
  { appleId := I.email,
    attempt := if useCode then "2" else "4",
    guid := I.deviceId,
    password :=
      match I.code with
      | some c => if I.smsVerified then I.password else I.password ++ c
      | none => I.password,
    rmp := "0",
    why := "signIn" }

/-- The store-front capture (lines 86-92): the part of the
`x-set-apple-store-front` header before the first `-`, kept only if
non-empty. -/
def storeFrontUpdate (r : MzResp) (sf : String) : String :=
  match r.storeFront with
  | none => sf
  | some h =>
    let p := (h.splitOn "-").headD ""
    if p = "" then sf else p

/-- `dict.dialog?.explanation ?? dict.customerMessage` (lines 163-165). -/
def failMsgOf (d : PlistDict) : Option String :=
  d.dialogExplanation.orElse (fun _ => d.customerMessage)

/-- Result of one loop iteration: terminate with an outcome, or continue with
an updated state. -/
inductive StepOut where
  | done (r : AuthResult)
  | next (st : LoopState)

/-- One iteration of the `authenticate` loop body (lines 47-201), after the
response has arrived. `currentAttempt` has been incremented; cookie merge and
store-front capture happen before any branch. A thrown plain `Error` becomes
a `next` state with `lastError` set (the catch at line 197); a thrown
`AuthenticationError` escapes as `done`. -/
def authStep (I : AuthInputs) (st : LoopState) (r : MzResp) : StepOut :=
  let att := st.attempt + 1
  let cookies := r.merge st.cookies
  let sf := storeFrontUpdate r st.storeFront
  if r.status = 302 then
    match r.location with
    | none =>
      .next { st with attempt := att, cookies := cookies, storeFront := sf,
                      lastError := some "errors.auth.redirectLocation" }
    | some l =>
      .next { st with attempt := att - 1, redirect := st.redirect + 1,
                      host := l.1, path := l.2, cookies := cookies, storeFront := sf }
  else if r.status = 404 ∧ I.code = none then
    .done (.verificationRequired "errors.auth.requiresVerification")
  else
    match r.body with
    | .empty =>
      .next { st with attempt := att, cookies := cookies, storeFront := sf,
                      lastError := some "errors.auth.emptyBody" }
    | .malformed =>
      .next { st with attempt := att, cookies := cookies, storeFront := sf,
                      lastError := some "errors.auth.parsePlist" }
    | .plist d =>
      if d.failureType = some "5020" then
        .next { st with attempt := att, cookies := cookies, storeFront := sf,
                        lastError := some ((failMsgOf d).getD "Account locked") }
      else if d.failureType = some "-5000" ∧ att = 1 then
        .next { st with attempt := att, cookies := cookies, storeFront := sf }
      else if d.failureType = some "" ∧ I.code = none ∧
              d.customerMessage = some "MZFinance.BadLogin.Configurator_message" then
        .done (.verificationRequired "errors.auth.requiresVerification")
      else
        match d.accountInfo with
        | none =>
          .next { st with attempt := att, cookies := cookies, storeFront := sf,
                          lastError := some ((failMsgOf d).getD "errors.auth.missingAccountInfo") }
        | some ai =>
          match ai.address with
          | none =>
            .next { st with attempt := att, cookies := cookies, storeFront := sf,
                            lastError := some ((failMsgOf d).getD "errors.auth.missingAddress") }
          | some addr =>
            .done (.ok { email := I.email, password := I.password,
                         appleId := ai.appleId.getD "",
                         store := sf,
                         firstName := addr.firstName.getD "",
                         lastName := addr.lastName.getD "",
                         passwordToken := d.passwordToken.getD "",
                         directoryServicesIdentifier := d.dsPersonId.getD "",
                         cookies := cookies, deviceIdentifier := I.deviceId,
                         pod := r.pod })

/-- The `authenticate` loop: while `currentAttempt < 2 && redirectAttempt <= 3`,
send one request (recorded in the log) and run one iteration on the next
scripted response; on loop exit, `throw lastError ?? unknown`. -/
def authLoop (I : AuthInputs) : LoopState → List MzResp → List MzRequest →
    AuthResult × List MzRequest
  | st, script, log =>
    if st.attempt < 2 ∧ st.redirect ≤ 3 then
      match script with
      | [] => (.outOfScript, log)
      | r :: rest =>
        let log2 := log ++ [{ host := st.host, path := st.path, body := requestParams I }]
        match authStep I st r with
        | .done res => (res, log2)
        | .next st2 => authLoop I st2 rest log2
    else (.failure (st.lastError.getD "errors.auth.unknownReason"), log)

/-- `authenticate` from authenticate.ts, over a scripted transport: start from
the bag endpoint with a private copy of the caller's cookies, zero counters,
no captured store front and no recorded error. Returns the outcome and the
requests sent. -/
def authenticate (I : AuthInputs) (existingCookies : List Cookie)
    (bagHost bagPath : String) (script : List MzResp) :
    AuthResult × List MzRequest :=
  authLoop I { attempt := 0, redirect := 0, host := bagHost, path := bagPath,
               cookies := existingCookies, storeFront := "", lastError := none }
    script []

/-! ## Heap refinement of `authenticate` for the cookie-array frame property

JavaScript arrays are heap objects passed by reference, so the claim that
`authenticate` never mutates the caller's `existingCookies` array is stated
over an explicit store of cookie arrays: references are indices, and
allocation appends. The source operates on arrays only by

* the spread copy `[...existingCookies]` at line 26 — a fresh allocation, and
* rebinding the local to the return value of `extractAndMergeCookies` at
  line 83 — per the spec, the merge collaborator returns an updated cookie
  list (modelled as a fresh allocation of `r.merge` applied to the current
  contents).

No operation writes through an existing reference, so each heap step is the
pure step with the cookie value placed in a freshly allocated cell. -/

/-- The heap of cookie arrays: a reference is an index, allocation appends. -/
abbrev CookieStore := List (List Cookie)

/-- Dereference: the contents of a cookie array. -/
def storeRead (store : CookieStore) (ref : Nat) : List Cookie :=
  store.getD ref []

/-- Heap loop state: as `LoopState`, but the cookie field is a reference. -/
structure HLoopState where
  attempt : Nat
  redirect : Nat
  host : String
  path : String
  cookies : Nat
  storeFront : String
  lastError : Option String

/-- View a heap state as a pure state by dereferencing its cookie field. -/
def liftState (store : CookieStore) (st : HLoopState) : LoopState :=
  { attempt := st.attempt, redirect := st.redirect, host := st.host,
    path := st.path, cookies := storeRead store st.cookies,
    storeFront := st.storeFront, lastError := st.lastError }

/-- Result of one heap iteration. -/
inductive StepOutH where
  | done (r : AuthResultG Nat)
  | next (st : HLoopState)

/-- One heap iteration: allocate a fresh cell for the merged cookie array
(line 83 stores the merge collaborator's freshly returned array), then run the
pure iteration with every cookie field pointing at that cell. -/
def authStepH (I : AuthInputs) (store : CookieStore) (st : HLoopState) (r : MzResp) :
    CookieStore × StepOutH :=
  let merged := r.merge (storeRead store st.cookies)
  let store2 := store ++ [merged]
  let cref := store.length
  match authStep I (liftState store st) r with
  | .done res => (store2, .done (mapResultCookies (fun _ => cref) res))
  | .next st2 =>
    (store2, .next { attempt := st2.attempt, redirect := st2.redirect,
                     host := st2.host, path := st2.path, cookies := cref,
                     storeFront := st2.storeFront, lastError := st2.lastError })

/-- The heap `authenticate` loop. -/
def authLoopH (I : AuthInputs) : CookieStore → HLoopState → List MzResp →
    List MzRequest → CookieStore × AuthResultG Nat × List MzRequest
  | store, st, script, log =>
    if st.attempt < 2 ∧ st.redirect ≤ 3 then
      match script with
      | [] => (store, .outOfScript, log)
      | r :: rest =>
        let log2 := log ++ [{ host := st.host, path := st.path, body := requestParams I }]
        match authStepH I store st r with
        | (store2, .done res) => (store2, res, log2)
        | (store2, .next st2) => authLoopH I store2 st2 rest log2
    else (store, .failure (st.lastError.getD "errors.auth.unknownReason"), log)

/-- `authenticate` over the heap: the caller passes a reference `eref` to its
cookie array; line 26 allocates the private spread copy, and the loop runs
with the copy's reference. Returns the final store, the outcome (an account's
cookie field being a reference), and the requests sent. -/
def authenticateH (I : AuthInputs) (store : CookieStore) (eref : Nat)
    (bagHost bagPath : String) (script : List MzResp) :
    CookieStore × AuthResultG Nat × List MzRequest :=
  authLoopH I (store ++ [storeRead store eref])
    { attempt := 0, redirect := 0, host := bagHost, path := bagPath,
      cookies := store.length, storeFront := "", lastError := none }
    script []

/-- A sample `securityCode` object: too many codes sent, no explicit
cooldown. -/
def scSample : SecurityCodeInfo :=
  { tooManyCodesSent := some true, securityCodeCooldown := some false,
    securityCodeLocked := some false }

/-- A sample auth-info response carrying `scSample`. -/
def authInfoSample : AuthInfoResp :=
  { status := 200,
    data := some { trustedPhoneNumbers := [], securityCode := some scSample } }

/-! ## Concrete scripted responses used by closed theorems -/

/-- Inputs of a plain first-factor sign-in attempt (no code, not
SMS-verified). -/
def testInputs : AuthInputs :=
  { email := "user", password := "pw", code := none, smsVerified := false,
    deviceId := "dev" }

/-- An HTTP 200 plist response with `failureType "5020"` (account locked)
carrying a customer message. -/
def respLocked : MzResp :=
  { status := 200, location := none, storeFront := none, pod := none,
    merge := id,
    body := .plist { failureType := some "5020",
                     customerMessage := some "locked",
                     dialogExplanation := none, accountInfo := none,
                     passwordToken := none, dsPersonId := none } }

/-- An HTTP 200 plist response with `failureType "-5000"` and no account
info. -/
def respMinus5000 : MzResp :=
  { status := 200, location := none, storeFront := none, pod := none,
    merge := id,
    body := .plist { failureType := some "-5000",
                     customerMessage := some "bad login",
                     dialogExplanation := none, accountInfo := none,
                     passwordToken := none, dsPersonId := none } }

/-- An HTTP 302 redirect to the given host and path. -/
def resp302 (host path : String) : MzResp :=
  { status := 302, location := some (host, path), storeFront := none,
    pod := none, merge := id, body := .empty }

/-- An HTTP 302 with no Location header. -/
def resp302NoLoc : MzResp :=
  { status := 302, location := none, storeFront := none, pod := none,
    merge := id, body := .empty }

/-- An HTTP 404 response (the 2FA-required signal when no code was sent). -/
def resp404 : MzResp :=
  { status := 404, location := none, storeFront := none, pod := none,
    merge := id, body := .empty }

/-- A successful plist response with full account info. -/
def respSuccess : MzResp :=
  { status := 200, location := none, storeFront := none, pod := none,
    merge := id,
    body := .plist { failureType := some "",
                     customerMessage := none, dialogExplanation := none,
                     accountInfo := some { appleId := some "user@x",
                                           address := some { firstName := some "F",
                                                             lastName := some "L" } },
                     passwordToken := some "tok", dsPersonId := some "123" } }

/-- The account `respSuccess` produces for `testInputs` with no cookies. -/
def successAccount : Account :=
  { email := "user", password := "pw", appleId := "user@x", store := "",
    firstName := "F", lastName := "L", passwordToken := "tok",
    directoryServicesIdentifier := "123", cookies := [],
    deviceIdentifier := "dev", pod := none }

/-- An init response whose server ephemeral decodes to a multiple of the
(sample) modulus 5. -/
def initRespDeg : InitResp :=
  { status := 200,
    data := some { iteration := 1, salt := "AA==", protocol := .s2k,
                   b := "BQ==", c := "c" } }

/-- A well-formed init response: 20000 iterations, the 16-byte salt
`00 01 ... 0f`, protocol `s2k`, a valid ephemeral and `c = "abc"`. -/
def initRespOk : InitResp :=
  { status := 200,
    data := some { iteration := 20000, salt := "AAECAwQFBgcICQoLDA0ODw==",
                   protocol := .s2k, b := "Ag==", c := "abc" } }

/-- A complete response carrying both session headers. -/
def compRespOk : CompleteResp :=
  { status := 200, sessionId := some "S1", scnt := some "T1" }

/-- A complete response without session headers. -/
def compRespNoHeaders : CompleteResp :=
  { status := 200, sessionId := none, scnt := none }

/-! ## Length facts about the modelled crypto primitives -/

/-- A SHA-256 digest is 32 bytes. -/
theorem sha256_length (msg : List Nat) : (sha256 msg).length = 32 := by
  simp [sha256, wordBytes]

/-- An HMAC-SHA-256 tag is 32 bytes. -/
theorem hmacSha256_length (key msg : List Nat) : (hmacSha256 key msg).length = 32 :=
  sha256_length _

/-- The PBKDF2 xor-accumulator keeps its 32-byte width. -/
theorem pbkdf2Rounds_length (p : List Nat) :
    ∀ (k : Nat) (acc u : List Nat), acc.length = 32 →
      (pbkdf2Rounds p acc u k).length = 32 := by
  intro k
  induction k with
  | zero => intro acc u h; simpa [pbkdf2Rounds] using h
  | succ n ih =>
    intro acc u h
    simp only [pbkdf2Rounds]
    exact ih _ _ (by simp [xorBytes, h, hmacSha256_length])

/-- Each PBKDF2 block is 32 bytes. -/
theorem pbkdf2Block_length (p s : List Nat) (c i : Nat) :
    (pbkdf2Block p s c i).length = 32 :=
  pbkdf2Rounds_length p _ _ _ (hmacSha256_length _ _)

/-- A 32-byte PBKDF2 derivation is exactly 32 bytes. -/
theorem pbkdf2Sha256_32_length (p s : List Nat) (c : Nat) :
    (pbkdf2Sha256 p s c 32).length = 32 := by
  have h1 : List.range ((32 + 31) / 32) = [0] := by rfl
  have h2 := pbkdf2Block_length p s c 1
  simp [pbkdf2Sha256, h1, List.length_take, h2]

/-- `derivePassword` with a nonzero iteration count is PBKDF2-SHA-256 over
the protocol-dependent input key material. -/
theorem derivePassword_eq (protocol : SRPProtocol) (password : String)
    (salt : List Nat) (iterations : Nat) (h : iterations ≠ 0) :
    derivePassword protocol password salt iterations =
      some (pbkdf2Sha256 (specIkm protocol password) salt iterations 32) := by
  cases protocol <;> simp [derivePassword, specIkm, h]

/-- C8. For every password, salt, and positive iteration count,
`derivePassword` returns exactly 32 bytes, computed as PBKDF2-SHA-256 over
input key material `h` with the given salt and iterations, where
`h = SHA256(UTF8(password))` for protocol `s2k` and
`h = UTF8(lowercase-hex(SHA256(UTF8(password))))` for protocol `s2k_fo`. -/
theorem derivePassword_spec (protocol : SRPProtocol) (password : String)
    (salt : List Nat) (iterations : Nat) (hpos : 0 < iterations) :
    derivePassword protocol password salt iterations =
      some (pbkdf2Sha256 (specIkm protocol password) salt iterations 32) ∧
    ∀ dk, derivePassword protocol password salt iterations = some dk →
      dk.length = 32 := by
  refine ⟨derivePassword_eq protocol password salt iterations (by omega), ?_⟩
  intro dk hdk
  rw [derivePassword_eq protocol password salt iterations (by omega)] at hdk
  cases hdk
  exact pbkdf2Sha256_32_length _ _ _

/-- Witness for C8 at protocol `s2k_fo`, a concrete salt and one iteration. -/
theorem derivePassword_spec_witness :
    0 < 1 ∧
    (derivePassword .s2k_fo "secret" [1, 2, 3] 1 =
      some (pbkdf2Sha256 (specIkm .s2k_fo "secret") [1, 2, 3] 1 32) ∧
    ∀ dk, derivePassword .s2k_fo "secret" [1, 2, 3] 1 = some dk → dk.length = 32) :=
  ⟨by decide, derivePassword_spec .s2k_fo "secret" [1, 2, 3] 1 (by decide)⟩

/-- C6. For every identity-provider response accepted by
`idmsaGetPhoneNumbers`, the reported `securityCodeCooldown` is true exactly
when the explicit cooldown flag or the too-many-codes flag is set; in
particular `tooManyCodesSent = true` with `securityCodeCooldown = false`
still reports cooldown. -/
theorem idmsa_cooldown_union (resp : AuthInfoResp) (d : AuthInfoData)
    (sc : SecurityCodeInfo) (h200 : resp.status = 200) (hd : resp.data = some d)
    (hsc : d.securityCode = some sc) :
    ∃ res, idmsaGetPhoneNumbers resp = .ok res ∧
      (res.securityCodeCooldown = true ↔
        sc.tooManyCodesSent = some true ∨ sc.securityCodeCooldown = some true) := by
  refine ⟨{ trustedPhoneNumbers := d.trustedPhoneNumbers,
            securityCodeCooldown :=
              optFlag d.securityCode (fun s => s.tooManyCodesSent) ||
              optFlag d.securityCode (fun s => s.securityCodeCooldown),
            tooManyCodesSent := optFlag d.securityCode (fun s => s.tooManyCodesSent),
            securityCodeLocked := optFlag d.securityCode (fun s => s.securityCodeLocked) },
    ?_, ?_⟩
  · simp [idmsaGetPhoneNumbers, h200, hd]
  · simp [optFlag, hsc, Bool.or_eq_true, beq_iff_eq]

/-- Witness for C6: `tooManyCodesSent: true`, `securityCodeCooldown: false`
yields a reported cooldown. -/
theorem idmsa_cooldown_union_witness :
    ∃ res, idmsaGetPhoneNumbers authInfoSample = .ok res ∧
      (res.securityCodeCooldown = true ↔
        scSample.tooManyCodesSent = some true ∨
        scSample.securityCodeCooldown = some true) :=
  idmsa_cooldown_union authInfoSample
    { trustedPhoneNumbers := [], securityCode := some scSample } scSample rfl rfl rfl

/-! ## Base64 round trip (C10) -/

/-- Decoding a base64 character produced by encoding recovers the 6-bit
group. -/
theorem b64Index_b64Char : ∀ s : Nat, s < 64 → b64Index (b64Char s) = some s := by
  decide

/-- An alphabet character is never the padding character. -/
theorem b64Char_ne_pad : ∀ s : Nat, s < 64 → b64Char s ≠ '=' := by
  decide

/-- Round trip of the character-level base64 codec on byte lists. -/
theorem decB64_encB64 :
    ∀ l : List Nat, (∀ b ∈ l, b < 256) → decB64 (encB64 l) = some l := by
  intro l
  induction l using encB64.induct with
  | case1 =>
    intro _
    rfl
  | case2 a =>
    intro hb
    have ha : a < 256 := hb a (by simp)
    have h1 : a % 256 / 4 < 64 := by omega
    have h2 : a % 4 * 16 < 64 := by omega
    simp [encB64, decB64, b64Index_b64Char _ h1, b64Index_b64Char _ h2]
    omega
  | case3 a b =>
    intro hb
    have ha : a < 256 := hb a (by simp)
    have hb2 : b < 256 := hb b (by simp)
    have h1 : a % 256 / 4 < 64 := by omega
    have h2 : a % 4 * 16 + b % 256 / 16 < 64 := by omega
    have h3 : b % 16 * 4 < 64 := by omega
    simp [encB64, decB64, b64Index_b64Char _ h1, b64Index_b64Char _ h2,
      b64Index_b64Char _ h3, b64Char_ne_pad _ h3]
    omega
  | case4 a b c rest ih =>
    intro hb
    have ha : a < 256 := hb a (by simp)
    have hb2 : b < 256 := hb b (by simp)
    have hc : c < 256 := hb c (by simp)
    have hrest : ∀ x ∈ rest, x < 256 := fun x hx => hb x (by simp [hx])
    have h1 : a % 256 / 4 < 64 := by omega
    have h2 : a % 4 * 16 + b % 256 / 16 < 64 := by omega
    have h3 : b % 16 * 4 + c % 256 / 64 < 64 := by omega
    have h4 : c % 64 < 64 := by omega
    simp [encB64, decB64, b64Index_b64Char _ h1, b64Index_b64Char _ h2,
      b64Index_b64Char _ h3, b64Index_b64Char _ h4, b64Char_ne_pad _ h3,
      b64Char_ne_pad _ h4, ih hrest]
    omega

/-- C10. The base64 helpers of the identity-provider client round-trip: for
every byte array, `b64Decode (b64Encode buf)` recovers `buf`. -/
theorem b64_roundtrip (buf : List Nat) (h : ∀ b ∈ buf, b < 256) :
    b64Decode (b64Encode buf) = some buf := by
  unfold b64Decode b64Encode
  rw [show (String.mk (encB64 buf)).toList = encB64 buf from rfl]
  exact decB64_encB64 buf h

/-- Witness for C10 on a concrete byte array exercising all three tail
shapes. -/
theorem b64_roundtrip_witness :
    (∀ b ∈ [0, 127, 255, 10], b < 256) ∧
      b64Decode (b64Encode [0, 127, 255, 10]) = some [0, 127, 255, 10] :=
  ⟨by decide, b64_roundtrip [0, 127, 255, 10] (by decide)⟩

/-! ## SRP failure and completion behaviour of `idmsaSignin` (C5, C7) -/

/-- C5. The SRP handshake never proceeds with a degenerate server ephemeral
or a malformed (empty) salt: when the decoded ephemeral reduces to zero mod
`N` the sign-in fails with `invalidEphemeral`, when the decoded salt is empty
it fails with `protocolError`, and in both cases only the init request was
sent — no proofs are ever transmitted. -/
theorem idmsa_degenerate_ephemeral (N g a : Nat) (email password : String)
    (initResp : InitResp) (d : InitData) (completeResp : CompleteResp)
    (saltB serverB : List Nat)
    (h200 : initResp.status = 200) (hd : initResp.data = some d)
    (hsalt : b64Decode d.salt = some saltB)
    (hb : b64Decode d.b = some serverB)
    (hit : d.iteration ≠ 0) :
    (natOfBytes serverB % N = 0 →
      idmsaSignin N g a email password initResp completeResp =
        (.error .invalidEphemeral,
         [IdmsaReq.init (b64Encode (natToBytes (clientPublicA N g a))) email])) ∧
    (saltB = [] → natOfBytes serverB % N ≠ 0 →
      idmsaSignin N g a email password initResp completeResp =
        (.error .protocolError,
         [IdmsaReq.init (b64Encode (natToBytes (clientPublicA N g a))) email])) := by
  constructor
  · intro hdeg
    simp [idmsaSignin, h200, hd, hsalt, hb,
      derivePassword_eq d.protocol password saltB d.iteration hit, srpGenerate, hdeg]
  · intro hempty hne
    simp [idmsaSignin, h200, hd, hsalt, hb,
      derivePassword_eq d.protocol password ([] : List Nat) d.iteration hit,
      srpGenerate, hempty, hne]

/-- Witness for C5: modulus 5, server ephemeral decoding to 5. -/
theorem idmsa_degenerate_ephemeral_witness :
    natOfBytes [5] % 5 = 0 ∧
    idmsaSignin 5 2 3 "e" "p" initRespDeg compRespNoHeaders =
      (.error .invalidEphemeral,
       [IdmsaReq.init (b64Encode (natToBytes (clientPublicA 5 2 3))) "e"]) :=
  ⟨by decide,
   (idmsa_degenerate_ephemeral 5 2 3 "e" "p" initRespDeg
      { iteration := 1, salt := "AA==", protocol := .s2k, b := "BQ==", c := "c" }
      compRespNoHeaders [0] [5] rfl rfl (by decide) (by decide) (by decide)).1
     (by decide)⟩

/-- C7. The completion step of `idmsaSignin`: after a well-formed init phase
(init HTTP 200, parseable data, decodable salt and ephemeral, non-empty salt,
non-degenerate ephemeral, positive iterations), any complete status other
than 200 or 409 is a `completeFailed` error; an absent session-id or scnt
header is a `missingSessionHeaders` error; and a 200/409 response carrying
both headers yields exactly that session. -/
theorem idmsa_complete_step (N g a : Nat) (email password : String)
    (initResp : InitResp) (d : InitData) (completeResp : CompleteResp)
    (saltB serverB : List Nat)
    (h200 : initResp.status = 200) (hd : initResp.data = some d)
    (hsalt : b64Decode d.salt = some saltB) (hsne : saltB ≠ [])
    (hb : b64Decode d.b = some serverB) (hbn : natOfBytes serverB % N ≠ 0)
    (hit : d.iteration ≠ 0) :
    (completeResp.status ≠ 200 → completeResp.status ≠ 409 →
      (idmsaSignin N g a email password initResp completeResp).1 =
        .error .completeFailed) ∧
    ((completeResp.status = 200 ∨ completeResp.status = 409) →
      (completeResp.sessionId = none ∨ completeResp.scnt = none) →
      (idmsaSignin N g a email password initResp completeResp).1 =
        .error .missingSessionHeaders) ∧
    (∀ sid sc, (completeResp.status = 200 ∨ completeResp.status = 409) →
      completeResp.sessionId = some sid → completeResp.scnt = some sc →
      sid ≠ "" → sc ≠ "" →
      (idmsaSignin N g a email password initResp completeResp).1 =
        .ok { sessionId := sid, scnt := sc }) := by
  refine ⟨?_, ?_, ?_⟩
  · intro h1 h2
    simp [idmsaSignin, h200, hd, hsalt, hb,
      derivePassword_eq d.protocol password saltB d.iteration hit, srpGenerate,
      hbn, hsne, h1, h2]
  · intro hst hmiss
    rcases hmiss with hm | hm
    · rcases hst with h | h <;>
        simp [idmsaSignin, h200, hd, hsalt, hb,
          derivePassword_eq d.protocol password saltB d.iteration hit, srpGenerate,
          hbn, hsne, h, hm]
    · rcases hst with h | h <;>
      · cases hsid : completeResp.sessionId <;>
          simp [idmsaSignin, h200, hd, hsalt, hb,
            derivePassword_eq d.protocol password saltB d.iteration hit, srpGenerate,
            hbn, hsne, h, hm, hsid]
  · intro sid sc hst hsid hscnt hs1 hs2
    rcases hst with h | h <;>
      simp [idmsaSignin, h200, hd, hsalt, hb,
        derivePassword_eq d.protocol password saltB d.iteration hit, srpGenerate,
        hbn, hsne, h, hsid, hscnt, hs1, hs2]

/-- Witness for C7: end-to-end scenario A — a well-formed init response and a
complete response with session id `S1` and sequence token `T1`. -/
theorem idmsa_complete_step_witness :
    natOfBytes [2] % 5 ≠ 0 ∧
    (idmsaSignin 5 2 3 "e" "p" initRespOk compRespOk).1 =
      .ok { sessionId := "S1", scnt := "T1" } :=
  ⟨by decide,
   (idmsa_complete_step 5 2 3 "e" "p" initRespOk
      { iteration := 20000, salt := "AAECAwQFBgcICQoLDA0ODw==",
        protocol := .s2k, b := "Ag==", c := "abc" }
      compRespOk [0, 1, 2, 3, 4, 5, 6, 7, 8, 9, 10, 11, 12, 13, 14, 15] [2]
      rfl rfl (by decide) (by decide) (by decide) (by decide) (by decide)).2.2
     "S1" "T1" (Or.inl rfl) rfl rfl (by decide) (by decide)⟩

/-! ## Account-service state machine behaviour (C1-C4) -/

/-- C1 (code bug evidence). A `failureType "5020"` (account locked) response
does not abort the loop: the thrown plain `Error` is caught by the attempt
loop's catch, so a second request IS sent — the transport call-count on two
consecutive locked responses is 2, not 1 — although the surfaced message is
still the lock message (customer message here). This contradicts the code's
own comment at authenticate.ts lines 137 and 140 ("do NOT retry",
"aborting, no retry"). -/
theorem mzfinance_5020_is_retried :
    (authenticate testInputs [] "host" "/path" [respLocked, respLocked]).2.length = 2 ∧
    (authenticate testInputs [] "host" "/path" [respLocked, respLocked]).1 =
      .failure "locked" := by
  constructor
  · rfl
  · rfl

/-- C2. A `failureType "-5000"` on the first credential attempt is retried
exactly once with an identical request (same target, same form body); a
second `-5000` (with no account info) is surfaced as the failure with no
further retry, for a total transport call-count of 2. -/
theorem mzfinance_minus5000_single_retry (I : AuthInputs) (bagHost bagPath : String)
    (r1 r2 : MzResp) (d1 d2 : PlistDict)
    (h1s : r1.status = 200) (h1b : r1.body = .plist d1)
    (h1f : d1.failureType = some "-5000")
    (h2s : r2.status = 200) (h2b : r2.body = .plist d2)
    (h2f : d2.failureType = some "-5000")
    (h2a : d2.accountInfo = none) :
    authenticate I [] bagHost bagPath [r1, r2] =
      (.failure ((failMsgOf d2).getD "errors.auth.missingAccountInfo"),
       [{ host := bagHost, path := bagPath, body := requestParams I },
        { host := bagHost, path := bagPath, body := requestParams I }]) := by
  simp [authenticate, authLoop, authStep, h1s, h1b, h1f, h2s, h2b, h2f, h2a]

/-- Witness for C2 on two concrete `-5000` responses. -/
theorem mzfinance_minus5000_single_retry_witness :
    authenticate testInputs [] "host" "/path" [respMinus5000, respMinus5000] =
      (.failure "bad login",
       [{ host := "host", path := "/path", body := requestParams testInputs },
        { host := "host", path := "/path", body := requestParams testInputs }]) :=
  mzfinance_minus5000_single_retry testInputs "host" "/path"
    respMinus5000 respMinus5000
    { failureType := some "-5000", customerMessage := some "bad login",
      dialogExplanation := none, accountInfo := none,
      passwordToken := none, dsPersonId := none }
    { failureType := some "-5000", customerMessage := some "bad login",
      dialogExplanation := none, accountInfo := none,
      passwordToken := none, dsPersonId := none }
    rfl rfl rfl rfl rfl rfl rfl

/-- C3 counterexample. A 302 lacking a Location header is not a fatal error:
the thrown error is caught by the attempt loop, a second request is sent,
and here the sign-in even succeeds — so no error is surfaced at all. -/
theorem mz_redirect_missing_location_cex :
    (authenticate testInputs [] "host" "/path" [resp302NoLoc, respSuccess]).1 =
      .ok successAccount ∧
    (authenticate testInputs [] "host" "/path" [resp302NoLoc, respSuccess]).2.length = 2 := by
  constructor
  · rfl
  · rfl

/-- C3 (amended). An HTTP 302 with a Location header never decrements the
credential-attempt budget (the counter is restored before looping) and
consumes a redirect hop; four consecutive redirects terminate the loop with
a failure; a 302 lacking a Location header raises an error that is caught by
the attempt loop — it consumes a credential attempt and is surfaced only when
the attempts are exhausted, rather than aborting immediately. -/
theorem mzfinance_redirect_policy (I : AuthInputs) (st : LoopState) (r : MzResp) :
    (∀ l, r.status = 302 → r.location = some l →
      authStep I st r = .next { attempt := st.attempt,
                                redirect := st.redirect + 1,
                                host := l.1, path := l.2,
                                cookies := r.merge st.cookies,
                                storeFront := storeFrontUpdate r st.storeFront,
                                lastError := st.lastError }) ∧
    ((authenticate testInputs [] "h0" "/p0"
        [resp302 "h1" "/p1", resp302 "h2" "/p2", resp302 "h3" "/p3",
         resp302 "h4" "/p4"]).1 = .failure "errors.auth.unknownReason" ∧
     (authenticate testInputs [] "h0" "/p0"
        [resp302 "h1" "/p1", resp302 "h2" "/p2", resp302 "h3" "/p3",
         resp302 "h4" "/p4"]).2.length = 4) ∧
    (r.status = 302 → r.location = none →
      authStep I st r = .next { attempt := st.attempt + 1,
                                redirect := st.redirect,
                                host := st.host, path := st.path,
                                cookies := r.merge st.cookies,
                                storeFront := storeFrontUpdate r st.storeFront,
                                lastError := some "errors.auth.redirectLocation" }) ∧
    (authenticate testInputs [] "host" "/path" [resp302NoLoc, resp302NoLoc]).1 =
      .failure "errors.auth.redirectLocation" := by
  refine ⟨?_, ⟨by rfl, by rfl⟩, ?_, by rfl⟩
  · intro l h302 hloc
    simp [authStep, h302, hloc]
  · intro h302 hloc
    simp [authStep, h302, hloc]

/-- Witness for C3's amended theorem at a concrete state and responses. -/
theorem mzfinance_redirect_policy_witness :
    authStep testInputs
      { attempt := 0, redirect := 0, host := "h0", path := "/p0", cookies := [],
        storeFront := "", lastError := none } (resp302 "h1" "/p1") =
      .next { attempt := 0, redirect := 1, host := "h1", path := "/p1",
              cookies := (resp302 "h1" "/p1").merge [],
              storeFront := storeFrontUpdate (resp302 "h1" "/p1") "",
              lastError := none } ∧
    authStep testInputs
      { attempt := 0, redirect := 0, host := "h0", path := "/p0", cookies := [],
        storeFront := "", lastError := none } resp302NoLoc =
      .next { attempt := 1, redirect := 0, host := "h0", path := "/p0",
              cookies := resp302NoLoc.merge [],
              storeFront := storeFrontUpdate resp302NoLoc "",
              lastError := some "errors.auth.redirectLocation" } :=
  ⟨(mzfinance_redirect_policy testInputs
      { attempt := 0, redirect := 0, host := "h0", path := "/p0", cookies := [],
        storeFront := "", lastError := none } (resp302 "h1" "/p1")).1
      ("h1", "/p1") rfl rfl,
   (mzfinance_redirect_policy testInputs
      { attempt := 0, redirect := 0, host := "h0", path := "/p0", cookies := [],
        storeFront := "", lastError := none } resp302NoLoc).2.2.1 rfl rfl⟩

/-- C4. An HTTP 404 with no code supplied raises the distinguished
`VerificationRequired` signal immediately: exactly one request is sent no
matter how much script remains, and the signal is not retried. -/
theorem mzfinance_404_verification_required (I : AuthInputs) (ec : List Cookie)
    (bh bp : String) (r : MzResp) (rest : List MzResp)
    (hcode : I.code = none) (h404 : r.status = 404) :
    authenticate I ec bh bp (r :: rest) =
      (.verificationRequired "errors.auth.requiresVerification",
       [{ host := bh, path := bp, body := requestParams I }]) := by
  simp [authenticate, authLoop, authStep, hcode, h404]

/-- Witness for C4: a 404 with further script available still sends exactly
one request. -/
theorem mzfinance_404_verification_required_witness :
    testInputs.code = none ∧
    authenticate testInputs [] "host" "/path" [resp404, respSuccess] =
      (.verificationRequired "errors.auth.requiresVerification",
       [{ host := "host", path := "/path", body := requestParams testInputs }]) :=
  ⟨rfl, mzfinance_404_verification_required testInputs [] "host" "/path"
    resp404 [respSuccess] rfl rfl⟩

/-! ## Cookie-array frame property (C9) -/

/-- Reading below the original length is unaffected by appended cells. -/
theorem storeRead_append (store ext : CookieStore) (r : Nat) (h : r < store.length) :
    storeRead (store ++ ext) r = storeRead store r := by
  simp [storeRead, List.getD, List.getElem?_append, h]

/-- Reading a freshly allocated cell yields its contents. -/
theorem storeRead_alloc (store : CookieStore) (m : List Cookie) :
    storeRead (store ++ [m]) store.length = m := by
  simp [storeRead, List.getD]

/-- Projections of `liftState`. -/
@[simp]
theorem liftState_attempt (store : CookieStore) (st : HLoopState) :
    (liftState store st).attempt = st.attempt := rfl

@[simp]
theorem liftState_redirect (store : CookieStore) (st : HLoopState) :
    (liftState store st).redirect = st.redirect := rfl

@[simp]
theorem liftState_host (store : CookieStore) (st : HLoopState) :
    (liftState store st).host = st.host := rfl

@[simp]
theorem liftState_path (store : CookieStore) (st : HLoopState) :
    (liftState store st).path = st.path := rfl

@[simp]
theorem liftState_cookies (store : CookieStore) (st : HLoopState) :
    (liftState store st).cookies = storeRead store st.cookies := rfl

@[simp]
theorem liftState_storeFront (store : CookieStore) (st : HLoopState) :
    (liftState store st).storeFront = st.storeFront := rfl

@[simp]
theorem liftState_lastError (store : CookieStore) (st : HLoopState) :
    (liftState store st).lastError = st.lastError := rfl

/-- Every continuation state produced by a loop iteration carries exactly
the merged cookie list. -/
theorem authStep_next_cookies (I : AuthInputs) (st : LoopState) (r : MzResp)
    (st2 : LoopState) (h : authStep I st r = .next st2) :
    st2.cookies = r.merge st.cookies := by
  simp only [authStep] at h
  repeat' split at h
  all_goals try injection h
  all_goals subst st2
  all_goals rfl

/-- Every successful account produced by a loop iteration carries exactly
the merged cookie list. -/
theorem authStep_ok_cookies (I : AuthInputs) (st : LoopState) (r : MzResp)
    (a : Account) (h : authStep I st r = .done (.ok a)) :
    a.cookies = r.merge st.cookies := by
  simp only [authStep] at h
  repeat' split at h
  all_goals try injection h
  all_goals rename_i hx
  all_goals try injection hx
  all_goals subst a
  all_goals rfl

/-- The heap loop simulates the pure loop: the store is only ever extended;
erasing references through the final store recovers the pure run (same
outcome, same request log); and a successful account cookie reference is
freshly allocated — at or above the initial store length and inside the final
store. -/
theorem authLoopH_sim (I : AuthInputs) :
    ∀ (script : List MzResp) (store : CookieStore) (st : HLoopState)
      (log : List MzRequest),
      (∃ ext, (authLoopH I store st script log).1 = store ++ ext) ∧
      (mapResultCookies (storeRead (authLoopH I store st script log).1)
          (authLoopH I store st script log).2.1,
        (authLoopH I store st script log).2.2) =
        authLoop I (liftState store st) script log ∧
      (∀ a, (authLoopH I store st script log).2.1 = .ok a →
        store.length ≤ a.cookies ∧ a.cookies < (authLoopH I store st script log).1.length) := by
  intro script
  induction script with
  | nil =>
    intro store st log
    by_cases hc : st.attempt < 2 ∧ st.redirect ≤ 3
    · refine ⟨⟨[], by simp [authLoopH, hc]⟩, ?_, ?_⟩
      · simp [authLoopH, authLoop, hc, mapResultCookies]
      · intro a ha
        simp [authLoopH, hc] at ha
    · refine ⟨⟨[], by simp [authLoopH, hc]⟩, ?_, ?_⟩
      · simp [authLoopH, authLoop, hc, mapResultCookies]
      · intro a ha
        simp [authLoopH, hc] at ha
  | cons r rest ih =>
    intro store st log
    by_cases hc : st.attempt < 2 ∧ st.redirect ≤ 3
    · cases hstep : authStep I (liftState store st) r with
      | done res =>
        have hH : authLoopH I store st (r :: rest) log =
            (store ++ [r.merge (storeRead store st.cookies)],
             mapResultCookies (fun _ => store.length) res,
             log ++ [{ host := st.host, path := st.path, body := requestParams I }]) := by
          simp [authLoopH, hc, authStepH, hstep]
        have hP : authLoop I (liftState store st) (r :: rest) log =
            (res, log ++ [{ host := st.host, path := st.path, body := requestParams I }]) := by
          simp [authLoop, hc, hstep]
        refine ⟨⟨[r.merge (storeRead store st.cookies)], by rw [hH]⟩, ?_, ?_⟩
        · rw [hH, hP]
          cases res with
          | ok a =>
            have hac := authStep_ok_cookies I (liftState store st) r a hstep
            simp only [liftState_cookies] at hac
            cases a
            simp_all [mapResultCookies, mapAccountCookies, storeRead_alloc]
          | verificationRequired m => simp [mapResultCookies]
          | failure m => simp [mapResultCookies]
          | outOfScript => simp [mapResultCookies]
        · intro a ha
          rw [hH] at ha
          cases res with
          | ok a2 =>
            simp [mapResultCookies, mapAccountCookies] at ha
            rw [hH]
            simp [← ha]
          | verificationRequired m => simp [mapResultCookies] at ha
          | failure m => simp [mapResultCookies] at ha
          | outOfScript => simp [mapResultCookies] at ha
      | next st2 =>
        have hcook : st2.cookies = r.merge (storeRead store st.cookies) := by
          simpa using authStep_next_cookies I (liftState store st) r st2 hstep
        have hH : authLoopH I store st (r :: rest) log =
            authLoopH I (store ++ [r.merge (storeRead store st.cookies)])
              { attempt := st2.attempt, redirect := st2.redirect, host := st2.host,
                path := st2.path, cookies := store.length,
                storeFront := st2.storeFront, lastError := st2.lastError }
              rest
              (log ++ [{ host := st.host, path := st.path, body := requestParams I }]) := by
          simp [authLoopH, hc, authStepH, hstep]
        have hP : authLoop I (liftState store st) (r :: rest) log =
            authLoop I st2 rest
              (log ++ [{ host := st.host, path := st.path, body := requestParams I }]) := by
          simp [authLoop, hc, hstep]
        have hlift : liftState (store ++ [r.merge (storeRead store st.cookies)])
            { attempt := st2.attempt, redirect := st2.redirect, host := st2.host,
              path := st2.path, cookies := store.length,
              storeFront := st2.storeFront, lastError := st2.lastError } = st2 := by
          cases st2
          simp_all [liftState, storeRead_alloc]
        obtain ⟨hext, herase, hok⟩ := ih (store ++ [r.merge (storeRead store st.cookies)])
          { attempt := st2.attempt, redirect := st2.redirect, host := st2.host,
            path := st2.path, cookies := store.length,
            storeFront := st2.storeFront, lastError := st2.lastError }
          (log ++ [{ host := st.host, path := st.path, body := requestParams I }])
        refine ⟨?_, ?_, ?_⟩
        · obtain ⟨ext, he⟩ := hext
          exact ⟨[r.merge (storeRead store st.cookies)] ++ ext,
            by rw [hH, he, List.append_assoc]⟩
        · rw [hH, hP, ← hlift]
          exact herase
        · intro a ha
          rw [hH] at ha
          obtain ⟨h1, h2⟩ := hok a ha
          rw [hH]
          constructor
          · simp at h1
            omega
          · exact h2
    · refine ⟨⟨[], by simp [authLoopH, hc]⟩, ?_, ?_⟩
      · simp [authLoopH, authLoop, hc, mapResultCookies]
      · intro a ha
        simp [authLoopH, hc] at ha

/-- C9. `authenticate` never mutates the caller-supplied `existingCookies`
array: in the heap model its contents are unchanged after any call; the
returned account's cookie field is a fresh reference distinct from the
caller's; and erasing references through the final store recovers exactly the
pure run — so the fresh array holds the accumulated merged cookies and the
outcome and request log agree with the pure model. -/
theorem authenticate_frame (I : AuthInputs) (store : CookieStore) (eref : Nat)
    (bagHost bagPath : String) (script : List MzResp) (h : eref < store.length) :
    storeRead (authenticateH I store eref bagHost bagPath script).1 eref =
      storeRead store eref ∧
    (mapResultCookies (storeRead (authenticateH I store eref bagHost bagPath script).1)
        (authenticateH I store eref bagHost bagPath script).2.1,
      (authenticateH I store eref bagHost bagPath script).2.2) =
      authenticate I (storeRead store eref) bagHost bagPath script ∧
    (∀ a, (authenticateH I store eref bagHost bagPath script).2.1 = .ok a →
      a.cookies ≠ eref) := by
  obtain ⟨⟨ext, hext⟩, herase, hok⟩ := authLoopH_sim I script
    (store ++ [storeRead store eref])
    { attempt := 0, redirect := 0, host := bagHost, path := bagPath,
      cookies := store.length, storeFront := "", lastError := none } []
  refine ⟨?_, ?_, ?_⟩
  · show storeRead (authLoopH I (store ++ [storeRead store eref]) _ script []).1 eref = _
    rw [hext, List.append_assoc]
    exact storeRead_append store ([storeRead store eref] ++ ext) eref h
  · show (mapResultCookies (storeRead (authLoopH I (store ++ [storeRead store eref]) _ script []).1)
        (authLoopH I (store ++ [storeRead store eref]) _ script []).2.1,
      (authLoopH I (store ++ [storeRead store eref]) _ script []).2.2) = _
    rw [herase]
    show authLoop I _ script [] = authLoop I _ script []
    congr 1
    simp [liftState, storeRead_alloc]
  · intro a ha
    obtain ⟨h1, _⟩ := hok a ha
    simp at h1
    omega

/-- Witness for C9: a one-array store, the caller's reference 0, and a
successful sign-in script. -/
theorem authenticate_frame_witness :
    (0 < ([["c0"]] : CookieStore).length) ∧
    (storeRead (authenticateH testInputs [["c0"]] 0 "host" "/path" [respSuccess]).1 0 =
      storeRead [["c0"]] 0 ∧
    (mapResultCookies (storeRead (authenticateH testInputs [["c0"]] 0 "host" "/path" [respSuccess]).1)
        (authenticateH testInputs [["c0"]] 0 "host" "/path" [respSuccess]).2.1,
      (authenticateH testInputs [["c0"]] 0 "host" "/path" [respSuccess]).2.2) =
      authenticate testInputs (storeRead [["c0"]] 0) "host" "/path" [respSuccess] ∧
    (∀ a, (authenticateH testInputs [["c0"]] 0 "host" "/path" [respSuccess]).2.1 = .ok a →
      a.cookies ≠ 0)) :=
  ⟨by decide,
   authenticate_frame testInputs [["c0"]] 0 "host" "/path" [respSuccess] (by decide)⟩
